import Mathlib

/-!
Verification of the claij repository: a shallow embedding of its two
scripts and proofs of the specification's claims about them.

* `bin/mcp-test-server.py` registers two tools, `echo` and `add`, on an
  MCP server and runs it over stdio.  The tool bodies are pure functions,
  embedded directly.

* `src/py/whisper_service.py` starts a FastAPI service: at module load it
  picks a device (`"cuda"` when `torch.cuda.is_available()`, else
  `"cpu"`), loads the whisper model `"small"` for that device, and serves
  `POST /transcribe`.  The handler writes the uploaded bytes to the fixed
  path `temp.wav` (unconditionally overwriting it), decodes that file
  with `soundfile.read`, rejects the request with
  `ValueError "Audio must be 16kHz"` when the decoded sample rate is not
  16000, otherwise casts the samples to float32, runs
  `model.transcribe`, and returns the JSON object
  `{"text": result["text"]}`.

The external libraries (soundfile's decoder, numpy's cast, the whisper
model) are parameters of the embedding (`Env`): the handler is proved
correct for every behaviour of those libraries.  The filesystem state is
just the content of the one fixed path the code uses.  The handler also
emits a trace of its externally visible steps so that temporal claims
(what was invoked, in what order) can be stated.
-/

/-! ## The MCP test server (`bin/mcp-test-server.py`) -/

/-- `echo` tool: `return message`. -/
def echo (message : String) : String :=
  message

/-- `add` tool: `return a + b`.  Python integers are unbounded, so `Int`. -/
def add (a : Int) (b : Int) : Int :=
  a + b

/-! ## The whisper service (`src/py/whisper_service.py`) -/

/-- An uploaded file's raw bytes. -/
abbrev Bytes := List Nat

/-- The local-disk state the service touches: the content of the one
fixed path `temp.wav` (`none` when the file does not exist). -/
structure FS where
  tempWav : Option Bytes
deriving DecidableEq

/-- `open("temp.wav", "wb")` followed by `f.write(content)`: truncating
write of the whole upload to the fixed path, whatever was there before. -/
def fsWrite (fs : FS) (content : Bytes) : FS :=
  { tempWav := some content }

/-- Reading the fixed path back from disk, as `sf.read("temp.wav")`
does before decoding. -/
def fsRead (fs : FS) : Option Bytes :=
  fs.tempWav

/-- One HTTP request to `POST /transcribe`: the `UploadFile` carries a
filename (used only in the log line) and the audio bytes. -/
structure Request where
  filename : String
  audio : Bytes
deriving DecidableEq

/-- What `sf.read` returns on success: the decoded sample buffer and the
sample rate.  `Sample` is the library's numeric sample type. -/
structure DecodeResult (Sample : Type) where
  data : List Sample
  rate : Nat
deriving DecidableEq

/-- What `model.transcribe` returns: a dictionary holding the recognized
text under the key `"text"` among other fields. -/
structure ModelResult where
  text : String
  otherFields : List (String × String)
deriving DecidableEq

/-- The external libraries the handler calls, as the embedding's
parameters: `sf.read`'s decoder (failing with an exception, hence
`Option`, on undecodable bytes), numpy's `astype(np.float32)` cast on
each sample, and the loaded whisper model's transcription. -/
structure Env (Sample F32 : Type) where
  sf_read : Bytes → Option (DecodeResult Sample)
  astype_float32 : Sample → F32
  model_transcribe : List F32 → ModelResult

/-- A JSON object whose fields are strings, as the handler's success
body `{"text": transcribed_text}` is. -/
abbrev JsonObj := List (String × String)

/-- The handler's observable outcome: a 200 response with a JSON body,
the `ValueError` the sample-rate check raises, or the exception a failed
decode raises (both surface as error responses through FastAPI). -/
inductive Response where
  | ok (body : JsonObj)
  | validationError (msg : String)
  | decodeError (msg : String)
deriving DecidableEq

/-- The externally visible steps of one handler execution, in order.
`resample` is a step the service could have taken but never does: no
line of the handler resamples, so no execution emits it. -/
inductive Event (F32 : Type) where
  | logReceived (filename : String)
  | writeTemp (content : Bytes)
  | readTemp (content : Bytes)
  | validate (rate : Nat)
  | resample
  | convertFloat32
  | invokeModel (input : List F32)
deriving DecidableEq

/-- A finished handler execution: the disk state it leaves behind, its
response, and the trace of its steps. -/
structure HandlerOut (F32 : Type) where
  fs : FS
  response : Response
  trace : List (Event F32)
deriving DecidableEq

/-- The `POST /transcribe` handler, line for line:
read the upload, write it to `temp.wav`, decode that file, reject a
sample rate other than 16000 with `ValueError "Audio must be 16kHz"`,
cast to float32, run the model, return `{"text": result["text"]}`. -/
def transcribe {Sample F32 : Type} (env : Env Sample F32) (fs : FS)
    (req : Request) : HandlerOut F32 :=
  let content := req.audio
  let fs1 := fsWrite fs content
  match fsRead fs1 with
  | none =>
      { fs := fs1, response := .decodeError "no such file",
        trace := [.logReceived req.filename, .writeTemp content] }
  | some bytes =>
      let t0 : List (Event F32) :=
        [.logReceived req.filename, .writeTemp content, .readTemp bytes]
      match env.sf_read bytes with
      | none =>
          { fs := fs1, response := .decodeError "format not recognised",
            trace := t0 }
      | some dr =>
          if dr.rate ≠ 16000 then
            { fs := fs1, response := .validationError "Audio must be 16kHz",
              trace := t0 ++ [.validate dr.rate] }
          else
            let audio32 := dr.data.map env.astype_float32
            let result := env.model_transcribe audio32
            { fs := fs1,
              response := .ok [("text", result.text)],
              trace := t0 ++ [.validate dr.rate, .convertFloat32,
                              .invokeModel audio32] }

/-- `device = "cuda" if torch.cuda.is_available() else "cpu"`. -/
def pickDevice (cudaAvailable : Bool) : String :=
  if cudaAvailable then "cuda" else "cpu"

/-- The result of module-load startup: which model size and device were
requested and the loaded model itself. -/
structure Loaded (M : Type) where
  modelSize : String
  device : String
  model : M
deriving DecidableEq

/-- `model = whisper.load_model("small", device=device)`: one blocking
load, at process start, of the fixed size `"small"` for the picked
device.  `loadModel` is whisper's loader, an external parameter. -/
def startService (M : Type) (loadModel : String → String → M)
    (cudaAvailable : Bool) : Loaded M :=
  let device := pickDevice cudaAvailable
  { modelSize := "small", device := device,
    model := loadModel "small" device }

/-- Serving a sequence of non-overlapping requests: each request runs
the handler against the disk state the previous one left, always with
the same startup environment (the one loaded model). -/
def serve {Sample F32 : Type} (env : Env Sample F32) (fs : FS) :
    List Request → FS × List Response
  | [] => (fs, [])
  | req :: reqs =>
      let out := transcribe env fs req
      let rest := serve env out.fs reqs
      (rest.1, out.response :: rest.2)

/-! ## Concrete instances used by the witnesses -/

/-- A concrete library environment: decodes bytes to integer samples,
reporting rate 44100 for single-byte uploads and 16000 otherwise;
the model reports the number of samples it saw. -/
def env0 : Env Int Int :=
  { sf_read := fun b =>
      some { data := b.map Int.ofNat,
             rate := if b.length = 1 then 44100 else 16000 },
    astype_float32 := fun s => s,
    model_transcribe := fun xs =>
      { text := toString xs.length, otherFields := [] } }

/-- An empty disk: `temp.wav` does not exist yet. -/
def fs0 : FS := { tempWav := none }

/-- A request whose upload `env0` decodes at 44100 Hz. -/
def reqA : Request := { filename := "a.wav", audio := [7] }

/-- A request whose upload `env0` decodes at 16000 Hz. -/
def reqB : Request := { filename := "b.wav", audio := [3, 4] }

/-! ## Claims about the MCP tools -/

/-- C3: the `echo` tool returns exactly its input for every string,
the empty string and strings with control characters included; being a
total Lean function of the same body, it raises nothing. -/
theorem echo_returns_input_unchanged (message : String) :
    echo message = message :=
  rfl

/-- C4: the `add` tool returns the integer sum of its two arguments for
all integers, negatives and zero included; in particular
`add 2 3 = 5`. -/
theorem add_returns_integer_sum :
    (∀ a b : Int, add a b = a + b) ∧ add 2 3 = 5 :=
  ⟨fun _ _ => rfl, rfl⟩

/-- A second request with `reqB`'s bytes but another filename. -/
def reqC : Request := { filename := "c.wav", audio := [3, 4] }

/-! ## Helper lemmas shared by the claims -/

/-- Unfolding the handler once the decode outcome is known: the file has
just been written, so `sf.read` sees exactly the uploaded bytes. -/
theorem transcribe_decode_some {S F : Type} (env : Env S F) (fs : FS)
    (req : Request) (dr : DecodeResult S)
    (h : env.sf_read req.audio = some dr) :
    transcribe env fs req =
      if dr.rate ≠ 16000 then
        { fs := { tempWav := some req.audio },
          response := .validationError "Audio must be 16kHz",
          trace := [.logReceived req.filename, .writeTemp req.audio,
                    .readTemp req.audio, .validate dr.rate] }
      else
        { fs := { tempWav := some req.audio },
          response := .ok [("text",
            (env.model_transcribe (dr.data.map env.astype_float32)).text)],
          trace := [.logReceived req.filename, .writeTemp req.audio,
                    .readTemp req.audio, .validate dr.rate, .convertFloat32,
                    .invokeModel (dr.data.map env.astype_float32)] } := by
  simp only [transcribe, fsRead, fsWrite, h, List.cons_append,
    List.nil_append]

/-- The handler's whole outcome is independent of the disk state it
starts from: the first thing it does is overwrite the fixed path. -/
theorem transcribe_fs_irrelevant {S F : Type} (env : Env S F)
    (fs fs' : FS) (req : Request) :
    transcribe env fs req = transcribe env fs' req :=
  rfl

/-- Every request in a run is answered exactly as the startup
environment answers it from any disk state. -/
theorem serve_responses {S F : Type} (env : Env S F) (fs : FS)
    (reqs : List Request) :
    (serve env fs reqs).2 =
      reqs.map fun r => (transcribe env fs r).response := by
  induction reqs generalizing fs with
  | nil => rfl
  | cons r rs ih =>
      exact congrArg (List.cons (transcribe env fs r).response)
        (ih (transcribe env fs r).fs)

/-! ## Claims about the whisper service -/

/-- C1: when the upload decodes, the handler raises the validation error
exactly when the decoded sample rate is not 16000 Hz; at 16000 Hz it
instead invokes the model and returns a success response. -/
theorem transcribe_validation_iff {S F : Type} (env : Env S F) (fs : FS)
    (req : Request) (dr : DecodeResult S)
    (h : env.sf_read req.audio = some dr) :
    ((∃ msg, (transcribe env fs req).response = .validationError msg) ↔
       dr.rate ≠ 16000) ∧
    (dr.rate = 16000 →
      (∃ body, (transcribe env fs req).response = .ok body) ∧
      Event.invokeModel (dr.data.map env.astype_float32) ∈
        (transcribe env fs req).trace) := by
  rw [transcribe_decode_some env fs req dr h]
  by_cases hr : dr.rate = 16000
  · simp [hr]
  · simp [hr]

/-- Witness for C1 at a concrete 44100 Hz upload. -/
theorem transcribe_validation_iff_witness :
    env0.sf_read reqA.audio = some { data := [7], rate := 44100 } ∧
    (((∃ msg, (transcribe env0 fs0 reqA).response = .validationError msg) ↔
        (44100 : Nat) ≠ 16000) ∧
     ((44100 : Nat) = 16000 →
       (∃ body, (transcribe env0 fs0 reqA).response = .ok body) ∧
       Event.invokeModel (([7] : List Int).map env0.astype_float32) ∈
         (transcribe env0 fs0 reqA).trace)) :=
  ⟨by rfl,
   transcribe_validation_iff env0 fs0 reqA { data := [7], rate := 44100 }
     (by rfl)⟩

/-- C2: at 16000 Hz the response body is exactly the one-field JSON
object binding `"text"` to the model's text on the float32-cast
samples. -/
theorem transcribe_success_body {S F : Type} (env : Env S F) (fs : FS)
    (req : Request) (dr : DecodeResult S)
    (h : env.sf_read req.audio = some dr) (hr : dr.rate = 16000) :
    (transcribe env fs req).response =
      .ok [("text",
        (env.model_transcribe (dr.data.map env.astype_float32)).text)] := by
  rw [transcribe_decode_some env fs req dr h]
  simp [hr]

/-- Witness for C2 at a concrete 16000 Hz upload. -/
theorem transcribe_success_body_witness :
    env0.sf_read reqB.audio = some { data := [3, 4], rate := 16000 } ∧
    (transcribe env0 fs0 reqB).response =
      .ok [("text",
        (env0.model_transcribe
          (([3, 4] : List Int).map env0.astype_float32)).text)] :=
  ⟨by rfl,
   transcribe_success_body env0 fs0 reqB { data := [3, 4], rate := 16000 }
     (by rfl) rfl⟩

/-- A prior disk state holding someone else's bytes at `temp.wav`. -/
def fsPrev : FS := { tempWav := some [9, 9] }

/-- C5: every request overwrites the one fixed path with exactly its own
uploaded bytes, whatever was there before, and the bytes handed to the
decoder are the ones read back from that same path. -/
theorem transcribe_fixed_path_write_read {S F : Type} (env : Env S F)
    (fs : FS) (req : Request) :
    (transcribe env fs req).fs = { tempWav := some req.audio } ∧
    Event.writeTemp req.audio ∈ (transcribe env fs req).trace ∧
    Event.readTemp req.audio ∈ (transcribe env fs req).trace ∧
    ∀ b : Bytes, Event.readTemp b ∈ (transcribe env fs req).trace →
      b = req.audio := by
  cases h : env.sf_read req.audio with
  | none => simp [transcribe, fsRead, fsWrite, h]
  | some dr =>
      rw [transcribe_decode_some env fs req dr h]
      by_cases hr : dr.rate = 16000 <;> simp [hr]

/-- C6: when the decoded rate is not 16000 Hz the model is never
invoked and no float32 conversion happens; no execution ever resamples;
and the validation step precedes any conversion or inference step. -/
theorem transcribe_no_inference_without_16k {S F : Type} (env : Env S F)
    (fs : FS) (req : Request) (dr : DecodeResult S)
    (h : env.sf_read req.audio = some dr) :
    (dr.rate ≠ 16000 →
      (∀ input : List F,
        Event.invokeModel input ∉ (transcribe env fs req).trace) ∧
      Event.convertFloat32 ∉ (transcribe env fs req).trace) ∧
    Event.resample ∉ (transcribe env fs req).trace ∧
    ∃ pre post,
      (transcribe env fs req).trace = pre ++ Event.validate dr.rate :: post ∧
      ∀ e ∈ pre, (∀ input : List F, e ≠ Event.invokeModel input) ∧
        e ≠ Event.convertFloat32 := by
  rw [transcribe_decode_some env fs req dr h]
  by_cases hr : dr.rate = 16000
  · refine ⟨fun hc => absurd hr hc, ?_, ?_⟩
    · simp [hr]
    · refine ⟨[.logReceived req.filename, .writeTemp req.audio,
          .readTemp req.audio],
        [.convertFloat32, .invokeModel (dr.data.map env.astype_float32)],
        ?_, ?_⟩
      · simp [hr]
      · simp
  · refine ⟨fun _ => ?_, ?_, ?_⟩
    · simp [hr]
    · simp [hr]
    · refine ⟨[.logReceived req.filename, .writeTemp req.audio,
          .readTemp req.audio], [], ?_, ?_⟩
      · simp [hr]
      · simp

/-- Witness for C6 at a concrete 44100 Hz upload. -/
theorem transcribe_no_inference_without_16k_witness :
    env0.sf_read reqA.audio = some { data := [7], rate := 44100 } ∧
    (((44100 : Nat) ≠ 16000 →
       (∀ input : List Int,
         Event.invokeModel input ∉ (transcribe env0 fs0 reqA).trace) ∧
       Event.convertFloat32 ∉ (transcribe env0 fs0 reqA).trace) ∧
     Event.resample ∉ (transcribe env0 fs0 reqA).trace ∧
     ∃ pre post,
       (transcribe env0 fs0 reqA).trace = pre ++ Event.validate 44100 :: post ∧
       ∀ e ∈ pre, (∀ input : List Int, e ≠ Event.invokeModel input) ∧
         e ≠ Event.convertFloat32) :=
  ⟨by rfl,
   transcribe_no_inference_without_16k env0 fs0 reqA
     { data := [7], rate := 44100 } (by rfl)⟩

/-- C7: for two sequential requests with different uploads, the second
request's outcome equals the outcome of running it alone from the same
start state: the first request's bytes left on disk play no part. -/
theorem transcribe_sequential_no_contamination {S F : Type}
    (env : Env S F) (fs : FS) (req1 req2 : Request)
    (_h : req1.audio ≠ req2.audio) :
    (transcribe env (transcribe env fs req1).fs req2).response =
      (transcribe env fs req2).response :=
  congrArg HandlerOut.response
    (transcribe_fs_irrelevant env (transcribe env fs req1).fs fs req2)

/-- Witness for C7 on two concrete distinct uploads. -/
theorem transcribe_sequential_no_contamination_witness :
    reqA.audio ≠ reqB.audio ∧
    (transcribe env0 (transcribe env0 fs0 reqA).fs reqB).response =
      (transcribe env0 fs0 reqB).response :=
  ⟨by decide,
   transcribe_sequential_no_contamination env0 fs0 reqA reqB (by decide)⟩

/-- C8: startup picks `"cuda"` exactly when the accelerator is
available and `"cpu"` otherwise, loads the fixed `"small"` model for
that device, and a whole run answers every request with that same
environment: each response is the fixed environment's answer to that
request alone. -/
theorem startup_picks_device_loads_fixed_model :
    (∀ (M : Type) (loadModel : String → String → M) (cuda : Bool),
      (startService M loadModel cuda).device =
        (if cuda then "cuda" else "cpu") ∧
      (startService M loadModel cuda).modelSize = "small" ∧
      (startService M loadModel cuda).model =
        loadModel "small" (if cuda then "cuda" else "cpu")) ∧
    (∀ (S F : Type) (env : Env S F) (fs : FS) (reqs : List Request),
      (serve env fs reqs).2 =
        reqs.map fun r => (transcribe env fs r).response) :=
  ⟨fun _ _ _ => ⟨rfl, rfl, rfl⟩,
   fun _ _ env fs reqs => serve_responses env fs reqs⟩

/-- C9: two requests with the same bytes but different filenames get
the same response and leave the same disk state; the filename reaches
only the log line. -/
theorem transcribe_filename_only_logging {S F : Type} (env : Env S F)
    (fs : FS) (req1 req2 : Request) (h : req1.audio = req2.audio) :
    (transcribe env fs req1).response = (transcribe env fs req2).response ∧
    (transcribe env fs req1).fs = (transcribe env fs req2).fs := by
  obtain ⟨f1, a1⟩ := req1
  obtain ⟨f2, a2⟩ := req2
  dsimp only at h
  subst h
  cases he : env.sf_read a1 with
  | none => simp [transcribe, fsRead, fsWrite, he]
  | some dr =>
      by_cases hr : dr.rate = 16000 <;>
        simp [transcribe, fsRead, fsWrite, he, hr]

/-- Witness for C9 on concrete same-bytes requests with different
filenames. -/
theorem transcribe_filename_only_logging_witness :
    reqB.audio = reqC.audio ∧
    ((transcribe env0 fs0 reqB).response =
       (transcribe env0 fs0 reqC).response ∧
     (transcribe env0 fs0 reqB).fs = (transcribe env0 fs0 reqC).fs) :=
  ⟨rfl, transcribe_filename_only_logging env0 fs0 reqB reqC rfl⟩

/-- C10: on a sample-rate validation failure the fixed file has already
been overwritten with the rejected upload and stays that way: the side
effect precedes the error and is not rolled back. -/
theorem transcribe_overwrites_before_validation_error {S F : Type}
    (env : Env S F) (fs : FS) (req : Request) (dr : DecodeResult S)
    (h : env.sf_read req.audio = some dr) (hr : dr.rate ≠ 16000) :
    (transcribe env fs req).response =
      .validationError "Audio must be 16kHz" ∧
    (transcribe env fs req).fs = { tempWav := some req.audio } := by
  rw [transcribe_decode_some env fs req dr h]
  simp [hr]

/-- Witness for C10: a 44100 Hz upload rejected from a disk state that
held other bytes, which end up replaced by the rejected upload. -/
theorem transcribe_overwrites_before_validation_error_witness :
    env0.sf_read reqA.audio = some { data := [7], rate := 44100 } ∧
    (44100 : Nat) ≠ 16000 ∧
    ((transcribe env0 fsPrev reqA).response =
       .validationError "Audio must be 16kHz" ∧
     (transcribe env0 fsPrev reqA).fs = { tempWav := some reqA.audio }) :=
  ⟨by rfl, by decide,
   transcribe_overwrites_before_validation_error env0 fsPrev reqA
     { data := [7], rate := 44100 } (by rfl) (by decide)⟩
